import Mathlib

/-!
Verification of the k3-window-plugin geometry engine.

The definitions below are shallow embeddings of the TypeScript sources:
`src/profileSystem.ts` (profile cross-sections, frame extrusion, depth
layout, glass panes) and `src/Window.tsx` (segment placement transforms,
sash kinematics, mullion rule, UI toggle handler).  Numeric values are
embedded exactly: rational arithmetic (`ℚ`) for the pure numeric code and
real arithmetic (`ℝ`) where rotations by multiples of pi occur.
-/

namespace WindowPlugin

/-- Millimetre-to-metre conversion factor, the `mm = 0.001` constant used
throughout `profileSystem.ts` and `Window.tsx`. -/
def mmQ : ℚ := 1 / 1000

-- ============================================================================
-- Opening types and sash modes (src/Window.tsx, src/types)
-- ============================================================================

/-- The six opening kinds of `Window.tsx` (`openingTypes` array):
`fixed`, `kipp` (tilt), `dreh-links` (turn-left), `dreh-rechts`
(turn-right), and the two hybrid tilt/turn kinds. -/
inductive OpeningType where
  | fixed
  | kipp
  | drehLinks
  | drehRechts
  | drehKippLinks
  | drehKippRechts
deriving DecidableEq, Repr

/-- Hybrid sash mode, `"dreh" | "kipp"` in `Window.tsx`. -/
inductive SashMode where
  | dreh
  | kipp
deriving DecidableEq, Repr

-- ============================================================================
-- Depth layout (profileSystem.ts: calculateGlassZPosition and friends)
-- ============================================================================

/-- `calculateGlassZPosition` from `profileSystem.ts`: glass centre Z in
metres from the profile depth (mm) and glass thickness (mm).  The source
computes `sashZOffset = -frameDepth * 0.15`, `sashDepth = frameDepth * 0.6`
and `glassZ = sashZOffset - sashDepth * 0.5 + thickness / 2`. -/
def calculateGlassZPosition (depthMm glassThicknessMm : ℚ) : ℚ :=
  let frameDepth := depthMm * mmQ
  let thickness := glassThicknessMm * mmQ
  let sashZOffset := -frameDepth * 0.15
  let sashDepth := frameDepth * 0.6
  sashZOffset - sashDepth * 0.5 + thickness / 2

/-- `calculateGlassFrontZPosition` from `profileSystem.ts`: front surface of
the glass, `glassZ + thickness / 2`. -/
def calculateGlassFrontZPosition (depthMm glassThicknessMm : ℚ) : ℚ :=
  let thickness := glassThicknessMm * mmQ
  calculateGlassZPosition depthMm glassThicknessMm + thickness / 2

/-- Modelled from the spec: the `DepthLayout.frameBack` offset.  No function
under `src/` computes this named quantity; the spec defines
`frameBack = profileDepth / 2` (section 4.4). -/
def frameBack (depthMm : ℚ) : ℚ :=
  depthMm * mmQ / 2

/-- Modelled from the spec: the `DepthLayout.frameFront` offset.  No function
under `src/` computes this named quantity; the spec defines
`frameFront = 3 * profileDepth / 2` (section 4.4). -/
def frameFront (depthMm : ℚ) : ℚ :=
  3 * (depthMm * mmQ) / 2

-- ============================================================================
-- Mullion (Pfosten) placement rule (Window.tsx, pfostenNeeds)
-- ============================================================================

/-- Left sash of a boundary needs a mullion on its right side
(`leftNeedsRight` in `pfostenNeeds`, Window.tsx): fixed, kipp, dreh-rechts
(anchors right, at the shared boundary) and both hybrids. -/
def leftNeedsRight (t : OpeningType) : Bool :=
  t == OpeningType.fixed ||
  t == OpeningType.kipp ||
  t == OpeningType.drehRechts ||
  t == OpeningType.drehKippLinks ||
  t == OpeningType.drehKippRechts

/-- Right sash of a boundary needs a mullion on its left side
(`rightNeedsLeft` in `pfostenNeeds`, Window.tsx): fixed, kipp, dreh-links
(anchors left, at the shared boundary) and both hybrids. -/
def rightNeedsLeft (t : OpeningType) : Bool :=
  t == OpeningType.fixed ||
  t == OpeningType.kipp ||
  t == OpeningType.drehLinks ||
  t == OpeningType.drehKippLinks ||
  t == OpeningType.drehKippRechts

/-- One boundary of `pfostenNeeds` (Window.tsx): the computed requirement,
overridden by the manual setting (0 = auto, 1 = no, 2 = yes). -/
def pfostenRequired (leftSash rightSash : OpeningType) (manualSetting : ℕ) : Bool :=
  let required := leftNeedsRight leftSash || rightNeedsLeft rightSash
  if manualSetting = 1 then false
  else if manualSetting = 2 then true
  else required

-- ============================================================================
-- Profile-key and opening-kind fallbacks (Window.tsx)
-- ============================================================================

/-- The profile key list of `Window.tsx`
(`["minimal", "modern-slim", "modern-wide", "traditional"]`). -/
def profileKeys : List String :=
  ["minimal", "modern-slim", "modern-wide", "traditional"]

/-- JavaScript array indexing: `arr[i]` is `undefined` (here `none`) for a
negative or out-of-range index. -/
def jsIndex {α : Type} (l : List α) (i : ℤ) : Option α :=
  if 0 ≤ i then l.get? i.toNat else none

/-- `profileKeys[profileChoice - 1] || "modern-slim"` from `Window.tsx`:
an unmapped profile choice falls back to the default library entry. -/
def profileKeyOf (profileChoice : ℤ) : String :=
  (jsIndex profileKeys (profileChoice - 1)).getD "modern-slim"

/-- The `openingTypes` array of `Window.tsx`, in source order. -/
def openingTypesList : List OpeningType :=
  [OpeningType.fixed, OpeningType.kipp, OpeningType.drehLinks,
   OpeningType.drehRechts, OpeningType.drehKippLinks, OpeningType.drehKippRechts]

/-- `openingTypes[choice - 1] || "fixed"` from the `openingConfigs` memo in
`Window.tsx`: an unmapped opening choice falls back to `fixed`. -/
def openingTypeOf (choice : ℤ) : OpeningType :=
  (jsIndex openingTypesList (choice - 1)).getD OpeningType.fixed

/-- The `openingConfigs` memo of `Window.tsx`: one opening kind per pane,
`Array.from({length: windowType}, (_, i) => openingTypes[sashChoices[i] - 1] || "fixed")`. -/
def openingConfigs (windowType : ℕ) (c1 c2 c3 : ℤ) : List OpeningType :=
  (List.range windowType).map fun i =>
    match [c1, c2, c3].get? i with
    | some c => openingTypeOf c
    | none => OpeningType.fixed

-- ============================================================================
-- Sash kinematics (Window.tsx, useFrame smooth animation)
-- ============================================================================

/-- One animation tick of the `useFrame` smooth animation in `Window.tsx`:
`diff = target - current; if (|diff| < 0.01) return target;
return current + diff * delta * 3`. -/
def sashTick (target dt current : ℚ) : ℚ :=
  let diff := target - current
  if |diff| < 0.01 then target
  else current + diff * dt * 3

/-- The angle sequence produced by repeated ticks with a fixed target and a
fixed per-frame `dt`, starting from a closed sash (angle 0). -/
def sashAngleSeq (target dt : ℚ) : ℕ → ℚ
  | 0 => 0
  | n + 1 => sashTick target dt (sashAngleSeq target dt n)

-- ============================================================================
-- UI toggle handler (Window.tsx, handleSashOpenChange) and reopen timer
-- ============================================================================

/-- The per-sash interactive state of `Window.tsx` at one index:
`sashOpenStates[i]`, `sashRotations[i]`, `sashModes[i]`, plus whether a
reopen `setTimeout` callback scheduled by `handleSashOpenChange` is pending. -/
structure SashUIState where
  isOpen : Bool
  rotation : ℚ
  mode : SashMode
  pendingReopen : Bool
deriving DecidableEq, Repr

/-- `handleSashOpenChange` from `Window.tsx` (current version): when the sash
is open and the requested mode differs, the rotation is reset to 0
immediately, the mode is switched, the open flag is cleared, and a reopen is
scheduled with `setTimeout(..., 50)` (modelled by `pendingReopen := true`);
otherwise the open flag is set to the requested value and the mode stored.
The handler never inspects the opening kind of the sash. -/
def handleSashOpenChange (s : SashUIState) (isOpen : Bool) (mode : SashMode) : SashUIState :=
  if s.isOpen = true ∧ s.mode ≠ mode then
    { isOpen := false, rotation := 0, mode := mode, pendingReopen := true }
  else
    { s with isOpen := isOpen, mode := mode }

/-- The `setTimeout` callback scheduled by the mode-switch branch of
`handleSashOpenChange`: it sets the open flag unconditionally, without
checking the current angle or whether the user has toggled again. -/
def reopenTimerFire (s : SashUIState) : SashUIState :=
  { s with isOpen := true, pendingReopen := false }

/-- The render guard of `Window.tsx`: opening-visualization toggles are only
rendered when `openingConfigs[index].type !== "fixed"`. -/
def rendersOpeningToggle (t : OpeningType) : Bool :=
  t != OpeningType.fixed

/-- The render guard of `Window.tsx` (`{!isFixed && ...}`): the sash frame
meshes are only rendered for non-fixed panes. -/
def rendersSashFrame (t : OpeningType) : Bool :=
  t != OpeningType.fixed

-- ============================================================================
-- Glass pane sizing (profileSystem.ts createGlassPanes, Window.tsx render)
-- ============================================================================

/-- Glass width and height (in metres) of pane `i` as computed by
`createGlassPanes` in `profileSystem.ts`: a fixed pane fills the whole
inner/sash opening, an operable pane is reduced by `sashFw * 2`
(`sashFw = outer profile width * 0.7`) on each axis. -/
def createGlassPaneSize (widthMm heightMm : ℚ) (paneCount : ℕ) (profileWidthMm : ℚ)
    (kinds : List OpeningType) (i : ℕ) : ℚ × ℚ :=
  let w := widthMm * mmQ
  let h := heightMm * mmQ
  let outerFw := profileWidthMm * mmQ
  let sashFw := outerFw * 0.7
  let innerWidth := w - outerFw * 2
  let innerHeight := h - outerFw * 2
  if paneCount = 1 then
    if kinds[0]? = some OpeningType.fixed then (innerWidth, innerHeight)
    else (innerWidth - sashFw * 2, innerHeight - sashFw * 2)
  else
    let sashWidth := innerWidth / paneCount
    if kinds[i]? = some OpeningType.fixed then (sashWidth, innerHeight)
    else (sashWidth - sashFw * 2, innerHeight - sashFw * 2)

/-- Glass width and height (in metres) for one pane as computed in the render
body of `Window.tsx` (`glassWidth` / `glassHeight`, isFixed branch). -/
def windowGlassSize (widthMm heightMm : ℚ) (windowType : ℕ) (profileWidthMm : ℚ)
    (kind : OpeningType) : ℚ × ℚ :=
  let innerWidth := widthMm * mmQ - profileWidthMm * mmQ * 2
  let innerHeight := heightMm * mmQ - profileWidthMm * mmQ * 2
  let sashWidth := if windowType = 1 then innerWidth else innerWidth / windowType
  let sashProfileWidth := profileWidthMm * mmQ * 0.7
  if kind = OpeningType.fixed then (sashWidth, innerHeight)
  else (sashWidth - sashProfileWidth * 2, innerHeight - sashProfileWidth * 2)

-- ============================================================================
-- 3D placement transforms (Window.tsx, getFrameSegmentTransform)
-- ============================================================================

/-- A 3D point/vector with real coordinates. -/
structure Vec3 where
  x : ℝ
  y : ℝ
  z : ℝ

/-- Rotation about the X axis (three.js `makeRotationX`). -/
noncomputable def rotX (t : ℝ) (v : Vec3) : Vec3 :=
  ⟨v.x, Real.cos t * v.y - Real.sin t * v.z, Real.sin t * v.y + Real.cos t * v.z⟩

/-- Rotation about the Y axis (three.js `makeRotationY`). -/
noncomputable def rotY (t : ℝ) (v : Vec3) : Vec3 :=
  ⟨Real.cos t * v.x + Real.sin t * v.z, v.y, -Real.sin t * v.x + Real.cos t * v.z⟩

/-- Rotation about the Z axis (three.js `makeRotationZ`). -/
noncomputable def rotZ (t : ℝ) (v : Vec3) : Vec3 :=
  ⟨Real.cos t * v.x - Real.sin t * v.y, Real.sin t * v.x + Real.cos t * v.y, v.z⟩

/-- A three.js Euler rotation with the default order XYZ:
the rotation matrix is `Rx * Ry * Rz`, so `Rz` is applied to the vector
first, then `Ry`, then `Rx`. -/
noncomputable def eulerXYZ (rx ry rz : ℝ) (v : Vec3) : Vec3 :=
  rotX rx (rotY ry (rotZ rz v))

/-- The edge role of a frame segment. -/
inductive FrameEdge where
  | bottom
  | top
  | left
  | right
deriving DecidableEq, Repr

/-- The nested-group transform returned by `getFrameSegmentTransform` in
`Window.tsx`: an outer group translation, a mesh Euler rotation (order XYZ)
and a mesh local translation. -/
structure SegmentTransform where
  groupPosition : Vec3
  meshRotation : Vec3
  meshPosition : Vec3

/-- `getFrameSegmentTransform` from `Window.tsx` (current version), the fixed
per-edge placement table for the outer frame ring.  `width`, `height`,
`depth` and `profileWidth` are in metres, exactly as passed at the call site
(`widthCm * 10 * 0.001` etc.). -/
noncomputable def getFrameSegmentTransform (segment : FrameEdge)
    (width height depth profileWidth : ℝ) : SegmentTransform :=
  match segment with
  | FrameEdge.bottom =>
      { groupPosition := ⟨-width / 2 + profileWidth, -height / 2, -depth⟩
        meshRotation := ⟨-Real.pi / 2, Real.pi / 2, Real.pi⟩
        meshPosition := ⟨0, 0, depth / 2⟩ }
  | FrameEdge.top =>
      { groupPosition := ⟨-width / 2 + profileWidth, height / 2, -depth⟩
        meshRotation := ⟨-Real.pi / 2, -Real.pi / 2, Real.pi⟩
        meshPosition := ⟨width - 2 * profileWidth, 0, depth / 2⟩ }
  | FrameEdge.left =>
      { groupPosition := ⟨-width / 2, -height / 2, -depth⟩
        meshRotation := ⟨Real.pi / 2, 0, 0⟩
        meshPosition := ⟨0, height, depth / 2⟩ }
  | FrameEdge.right =>
      { groupPosition := ⟨width / 2, -height / 2 - height, -depth⟩
        meshRotation := ⟨-Real.pi / 2, 0, Real.pi⟩
        meshPosition := ⟨0, height, depth / 2⟩ }

/-- Apply a segment transform to a point of the extruded geometry, following
the three.js scene graph: `world = groupPosition + meshPosition + R * p`
(the mesh matrix is `T(position) * R(rotation)`, nested in a group that only
translates). -/
noncomputable def applySegmentTransform (t : SegmentTransform) (p : Vec3) : Vec3 :=
  let r := eulerXYZ t.meshRotation.x t.meshRotation.y t.meshRotation.z p
  ⟨t.groupPosition.x + t.meshPosition.x + r.x,
   t.groupPosition.y + t.meshPosition.y + r.y,
   t.groupPosition.z + t.meshPosition.z + r.z⟩

/-- Euclidean distance between two points. -/
noncomputable def vdist (a b : Vec3) : ℝ :=
  Real.sqrt ((a.x - b.x) ^ 2 + (a.y - b.y) ^ 2 + (a.z - b.z) ^ 2)

/-- Millimetre-to-metre conversion over the reals (`mm = 0.001`). -/
noncomputable def mmR : ℝ := 0.001

/-- The L-shaped outer-frame profile polygon of
`createLShapeProfileCrossSection` in `profileSystem.ts` (inputs in mm,
vertices in metres): a `width × depth` rectangle with a
`0.3 width × 0.3 depth` rebate notch cut from its inner top corner. -/
noncomputable def createLShapeProfileCrossSection (totalWidth totalDepth : ℝ) :
    List (ℝ × ℝ) :=
  let w := totalWidth * mmR
  let d := totalDepth * mmR
  let rebateWidth := w * 0.3
  let rebateDepth := d * 0.3
  [(0, 0), (w, 0), (w, d - rebateDepth), (w - rebateWidth, d - rebateDepth),
   (w - rebateWidth, d), (0, d)]

/-- `createFrameFromProfile` from `profileSystem.ts`: each of the four ring
segments is the L-profile extruded along +Z; the extrusion length (the
`depth` option of `ExtrudeGeometry`) is `w - 2 * pw` for bottom and top and
`h` (the full height) for left and right, with `w`, `h`, `pw` the mm inputs
scaled to metres. -/
noncomputable def createFrameFromProfile (outerWidth outerHeight profileWidth
    profileDepth : ℝ) (segment : FrameEdge) : List (ℝ × ℝ) × ℝ :=
  let w := outerWidth * mmR
  let h := outerHeight * mmR
  let pw := profileWidth * mmR
  let lProfile := createLShapeProfileCrossSection profileWidth profileDepth
  match segment with
  | FrameEdge.bottom => (lProfile, w - 2 * pw)
  | FrameEdge.top => (lProfile, w - 2 * pw)
  | FrameEdge.left => (lProfile, h)
  | FrameEdge.right => (lProfile, h)

-- ============================================================================
-- Target rotation per opening kind (Window.tsx, useFrame targetRotations)
-- ============================================================================

/-- The `targetRotations` switch of the `useFrame` callback in `Window.tsx`
(current version): target angle per opening kind and, for hybrids, per mode;
a closed sash always targets 0. -/
noncomputable def targetRotation (t : OpeningType) (mode : SashMode)
    (isOpen : Bool) : ℝ :=
  if !isOpen then 0 else
  match t with
  | OpeningType.fixed => 0
  | OpeningType.kipp => Real.pi / 16
  | OpeningType.drehLinks => -Real.pi * 0.6
  | OpeningType.drehRechts => Real.pi * 0.6
  | OpeningType.drehKippLinks =>
      if mode = SashMode.kipp then Real.pi / 16 else -Real.pi * 0.6
  | OpeningType.drehKippRechts =>
      if mode = SashMode.kipp then Real.pi / 16 else Real.pi * 0.6

/-- World-space image of a point of a frame segment geometry under that
edge's placement transform, with ring dimensions in metres. -/
noncomputable def worldPoint (segment : FrameEdge) (w h d pw : ℝ) (p : Vec3) : Vec3 :=
  applySegmentTransform (getFrameSegmentTransform segment w h d pw) p

/-- The corner-joint contract of the frame assembler for a ring with mm
inputs `W H PW PD` and metre-level dimensions `w h pw d`:
the four extrusion lengths are `W - 2 PW` (bottom, top) and `H` (left,
right) scaled to metres; at each of the four corners the joint edge of the
rail end face coincides (within 1e-6, for every profile depth coordinate
`v`) with the matching edge of the jamb side face; and the rails lie in the
closed slab between the two jamb inner faces while each jamb stays on its
own side, so the segments meet with no gap and no overlap. -/
def FrameRingCornerSpec (W H PW PD w h pw d : ℝ) : Prop :=
  ((createFrameFromProfile W H PW PD FrameEdge.bottom).2 = w - 2 * pw ∧
   (createFrameFromProfile W H PW PD FrameEdge.top).2 = w - 2 * pw ∧
   (createFrameFromProfile W H PW PD FrameEdge.left).2 = h ∧
   (createFrameFromProfile W H PW PD FrameEdge.right).2 = h) ∧
  (∀ v : ℝ,
    vdist (worldPoint FrameEdge.bottom w h d pw ⟨0, v, 0⟩)
      (worldPoint FrameEdge.left w h d pw
        ⟨pw, v, (createFrameFromProfile W H PW PD FrameEdge.left).2⟩) < 1e-6 ∧
    vdist (worldPoint FrameEdge.bottom w h d pw
        ⟨0, v, (createFrameFromProfile W H PW PD FrameEdge.bottom).2⟩)
      (worldPoint FrameEdge.right w h d pw ⟨pw, v, 0⟩) < 1e-6 ∧
    vdist (worldPoint FrameEdge.top w h d pw
        ⟨0, v, (createFrameFromProfile W H PW PD FrameEdge.top).2⟩)
      (worldPoint FrameEdge.left w h d pw ⟨pw, v, 0⟩) < 1e-6 ∧
    vdist (worldPoint FrameEdge.top w h d pw ⟨0, v, 0⟩)
      (worldPoint FrameEdge.right w h d pw
        ⟨pw, v, (createFrameFromProfile W H PW PD FrameEdge.right).2⟩) < 1e-6) ∧
  ((∀ u v zp, 0 ≤ zp → zp ≤ w - 2 * pw →
      -(w / 2) + pw ≤ (worldPoint FrameEdge.bottom w h d pw ⟨u, v, zp⟩).x ∧
      (worldPoint FrameEdge.bottom w h d pw ⟨u, v, zp⟩).x ≤ w / 2 - pw) ∧
   (∀ u v zp, 0 ≤ zp → zp ≤ w - 2 * pw →
      -(w / 2) + pw ≤ (worldPoint FrameEdge.top w h d pw ⟨u, v, zp⟩).x ∧
      (worldPoint FrameEdge.top w h d pw ⟨u, v, zp⟩).x ≤ w / 2 - pw) ∧
   (∀ u v zp, u ≤ pw →
      (worldPoint FrameEdge.left w h d pw ⟨u, v, zp⟩).x ≤ -(w / 2) + pw) ∧
   (∀ u v zp, u ≤ pw →
      w / 2 - pw ≤ (worldPoint FrameEdge.right w h d pw ⟨u, v, zp⟩).x))

-- ============================================================================
-- Theorems
-- ============================================================================

/-- Closed form of the bottom-rail placement: the profile coordinate `u`
becomes height above the rail bottom, the profile depth `v` becomes world Z,
and the extrusion coordinate `zp` runs rightwards from the left jamb face. -/
theorem worldPoint_bottom (w h d pw u v zp : ℝ) :
    worldPoint FrameEdge.bottom w h d pw ⟨u, v, zp⟩ =
      ⟨-(w / 2) + pw + zp, -(h / 2) + u, -(d / 2) + v⟩ := by
  simp only [worldPoint, applySegmentTransform, getFrameSegmentTransform, eulerXYZ,
    rotX, rotY, rotZ, neg_div, Real.cos_neg, Real.sin_neg, Real.cos_pi, Real.sin_pi,
    Real.cos_pi_div_two, Real.sin_pi_div_two, Real.cos_zero, Real.sin_zero, Vec3.mk.injEq]
  refine ⟨by ring, by ring, by ring⟩

/-- Closed form of the top-rail placement: the extrusion coordinate runs
leftwards from the right jamb face and the profile hangs below the top. -/
theorem worldPoint_top (w h d pw u v zp : ℝ) :
    worldPoint FrameEdge.top w h d pw ⟨u, v, zp⟩ =
      ⟨w / 2 - pw - zp, h / 2 - u, -(d / 2) + v⟩ := by
  simp only [worldPoint, applySegmentTransform, getFrameSegmentTransform, eulerXYZ,
    rotX, rotY, rotZ, neg_div, Real.cos_neg, Real.sin_neg, Real.cos_pi, Real.sin_pi,
    Real.cos_pi_div_two, Real.sin_pi_div_two, Real.cos_zero, Real.sin_zero, Vec3.mk.injEq]
  refine ⟨by ring, by ring, by ring⟩

/-- Closed form of the left-jamb placement: the extrusion coordinate runs
downwards from the top of the ring over the full height. -/
theorem worldPoint_left (w h d pw u v zp : ℝ) :
    worldPoint FrameEdge.left w h d pw ⟨u, v, zp⟩ =
      ⟨-(w / 2) + u, h / 2 - zp, -(d / 2) + v⟩ := by
  simp only [worldPoint, applySegmentTransform, getFrameSegmentTransform, eulerXYZ,
    rotX, rotY, rotZ, neg_div, Real.cos_neg, Real.sin_neg, Real.cos_pi, Real.sin_pi,
    Real.cos_pi_div_two, Real.sin_pi_div_two, Real.cos_zero, Real.sin_zero, Vec3.mk.injEq]
  refine ⟨by ring, by ring, by ring⟩

/-- Closed form of the right-jamb placement: the extrusion coordinate runs
upwards from the bottom of the ring over the full height. -/
theorem worldPoint_right (w h d pw u v zp : ℝ) :
    worldPoint FrameEdge.right w h d pw ⟨u, v, zp⟩ =
      ⟨w / 2 - u, -(h / 2) + zp, -(d / 2) + v⟩ := by
  simp only [worldPoint, applySegmentTransform, getFrameSegmentTransform, eulerXYZ,
    rotX, rotY, rotZ, neg_div, Real.cos_neg, Real.sin_neg, Real.cos_pi, Real.sin_pi,
    Real.cos_pi_div_two, Real.sin_pi_div_two, Real.cos_zero, Real.sin_zero, Vec3.mk.injEq]
  refine ⟨by ring, by ring, by ring⟩

/-- The distance of a point to itself is zero. -/
theorem vdist_self (a : Vec3) : vdist a a = 0 := by
  simp [vdist]

/-- Claim C1: for every ring with width and height larger than twice the
profile width and positive profile width and depth, the frame assembler
extrudes bottom and top with length width - 2 profileWidth and left and
right with the full height, and the fixed per-edge placement transforms make
the corner-adjacent endpoints of each pair of adjacent segments coincide
within 1e-6 at all four corners, with no gap and no overlap. -/
theorem frame_ring_corner_joints (W H PW PD w h pw d : ℝ)
    (hW : 2 * PW < W) (hH : 2 * PW < H) (hPW : 0 < PW) (hPD : 0 < PD)
    (hw : w = W * mmR) (hh : h = H * mmR) (hpw : pw = PW * mmR) (hd : d = PD * mmR) :
    FrameRingCornerSpec W H PW PD w h pw d := by
  have hlen : ∀ seg, (createFrameFromProfile W H PW PD seg).2 =
      match seg with
      | FrameEdge.bottom => w - 2 * pw
      | FrameEdge.top => w - 2 * pw
      | FrameEdge.left => h
      | FrameEdge.right => h := by
    intro seg
    cases seg <;> simp [createFrameFromProfile, hw, hh, hpw]
  refine ⟨⟨hlen FrameEdge.bottom, hlen FrameEdge.top, hlen FrameEdge.left,
    hlen FrameEdge.right⟩, ?_, ?_⟩
  · intro v
    rw [hlen FrameEdge.left, hlen FrameEdge.bottom, hlen FrameEdge.top,
      hlen FrameEdge.right]
    have e1 : worldPoint FrameEdge.bottom w h d pw ⟨0, v, 0⟩ =
        worldPoint FrameEdge.left w h d pw ⟨pw, v, h⟩ := by
      rw [worldPoint_bottom, worldPoint_left]
      simp only [Vec3.mk.injEq]
      refine ⟨by ring, by ring, by ring⟩
    have e2 : worldPoint FrameEdge.bottom w h d pw ⟨0, v, w - 2 * pw⟩ =
        worldPoint FrameEdge.right w h d pw ⟨pw, v, 0⟩ := by
      rw [worldPoint_bottom, worldPoint_right]
      simp only [Vec3.mk.injEq]
      refine ⟨by ring, by ring, by ring⟩
    have e3 : worldPoint FrameEdge.top w h d pw ⟨0, v, w - 2 * pw⟩ =
        worldPoint FrameEdge.left w h d pw ⟨pw, v, 0⟩ := by
      rw [worldPoint_top, worldPoint_left]
      simp only [Vec3.mk.injEq]
      refine ⟨by ring, by ring, by ring⟩
    have e4 : worldPoint FrameEdge.top w h d pw ⟨0, v, 0⟩ =
        worldPoint FrameEdge.right w h d pw ⟨pw, v, h⟩ := by
      rw [worldPoint_top, worldPoint_right]
      simp only [Vec3.mk.injEq]
      refine ⟨by ring, by ring, by ring⟩
    rw [e1, e2, e3, e4]
    simp only [vdist_self]
    norm_num
  · refine ⟨?_, ?_, ?_, ?_⟩
    · intro u v zp hzp0 hzp1
      rw [worldPoint_bottom]
      constructor <;> simp <;> linarith
    · intro u v zp hzp0 hzp1
      rw [worldPoint_top]
      constructor <;> simp <;> linarith
    · intro u v zp hu
      rw [worldPoint_left]
      simp
      linarith
    · intro u v zp hu
      rw [worldPoint_right]
      simp
      linarith

/-- Witness for `frame_ring_corner_joints`: the 1000mm x 1200mm ring with
the 60mm x 70mm profile. -/
theorem frame_ring_corner_joints_witness :
    (2 * (60 : ℝ) < 1000 ∧ 2 * (60 : ℝ) < 1200 ∧ (0 : ℝ) < 60 ∧ (0 : ℝ) < 70) ∧
      FrameRingCornerSpec 1000 1200 60 70
        (1000 * mmR) (1200 * mmR) (60 * mmR) (70 * mmR) :=
  ⟨by norm_num,
   frame_ring_corner_joints 1000 1200 60 70
     (1000 * mmR) (1200 * mmR) (60 * mmR) (70 * mmR)
     (by norm_num) (by norm_num) (by norm_num) (by norm_num) rfl rfl rfl rfl⟩

/-- Claim C2, counterexample: at profileDepth 70mm and glassThickness 24mm the
code returns glassZ = -0.0195m, not the claimed
sashClosedZ - sashDepth/2 + thickness/2 with a positive
sashClosedZ = 0.15 * profileDepth (which would give 0.0015m): the source
computes the sash offset as `-frameDepth * 0.15`, a negative offset. -/
theorem glassZ_positive_offset_counterexample :
    calculateGlassZPosition 70 24 ≠
      0.15 * (70 * mmQ) - 0.6 * (70 * mmQ) / 2 + 24 * mmQ / 2 := by
  norm_num [calculateGlassZPosition, mmQ]

/-- Claim C2 (amended): for every profileDepth > 0 and glassThickness ≥ 0,
`calculateGlassZPosition` returns
`sashZOffset - sashDepth/2 + glassThickness/2` with
`sashZOffset = -(0.15 * profileDepth)` (a negative offset: the sash sits at
minus 15 percent of the frame depth) and `sashDepth = 0.6 * profileDepth`,
all scaled from mm to metres. -/
theorem glassZ_depth_layout (d t : ℚ) (hd : 0 < d) (ht : 0 ≤ t) :
    calculateGlassZPosition d t =
      -(0.15 * (d * mmQ)) - 0.6 * (d * mmQ) / 2 + t * mmQ / 2 := by
  unfold calculateGlassZPosition
  ring

/-- Witness for `glassZ_depth_layout` at profileDepth 70mm, thickness 24mm. -/
theorem glassZ_depth_layout_witness :
    ((0 : ℚ) < 70 ∧ (0 : ℚ) ≤ 24) ∧
      calculateGlassZPosition 70 24 =
        -(0.15 * (70 * mmQ)) - 0.6 * (70 * mmQ) / 2 + 24 * mmQ / 2 :=
  ⟨by norm_num, glassZ_depth_layout 70 24 (by norm_num) (by norm_num)⟩

/-- Claim C7: for every profileDepth > 0 and glassThickness ≥ 0, the glass
front surface satisfies `glassFrontZ = glassZ + thickness/2`, and the frame
front offset exceeds the frame back offset (the latter pair modelled from the
spec, which defines `frameBack = profileDepth/2` and
`frameFront = 3 * profileDepth/2`). -/
theorem glassFrontZ_and_frame_offsets (d t : ℚ) (hd : 0 < d) (ht : 0 ≤ t) :
    calculateGlassFrontZPosition d t = calculateGlassZPosition d t + t * mmQ / 2 ∧
      frameBack d < frameFront d := by
  constructor
  · rfl
  · unfold frameBack frameFront mmQ
    linarith

/-- Witness for `glassFrontZ_and_frame_offsets` at profileDepth 70mm,
thickness 24mm. -/
theorem glassFrontZ_and_frame_offsets_witness :
    ((0 : ℚ) < 70 ∧ (0 : ℚ) ≤ 24) ∧
      (calculateGlassFrontZPosition 70 24 = calculateGlassZPosition 70 24 + 24 * mmQ / 2 ∧
        frameBack 70 < frameFront 70) :=
  ⟨by norm_num, glassFrontZ_and_frame_offsets 70 24 (by norm_num) (by norm_num)⟩

/-- Claim C4: for an open sash the target angle is pi/16 for kipp (tilt),
-(0.6 pi) for dreh-links (turn-left), 0.6 pi for dreh-rechts (turn-right),
0 for fixed, and the hybrids pick the tilt target in kipp mode and their
respective turn target in dreh mode. -/
theorem target_rotation_table :
    (∀ m, targetRotation OpeningType.kipp m true = Real.pi / 16) ∧
    (∀ m, targetRotation OpeningType.drehLinks m true = -(0.6 * Real.pi)) ∧
    (∀ m, targetRotation OpeningType.drehRechts m true = 0.6 * Real.pi) ∧
    (∀ m, targetRotation OpeningType.fixed m true = 0) ∧
    targetRotation OpeningType.drehKippLinks SashMode.kipp true = Real.pi / 16 ∧
    targetRotation OpeningType.drehKippLinks SashMode.dreh true = -(0.6 * Real.pi) ∧
    targetRotation OpeningType.drehKippRechts SashMode.kipp true = Real.pi / 16 ∧
    targetRotation OpeningType.drehKippRechts SashMode.dreh true = 0.6 * Real.pi := by
  refine ⟨fun m => ?_, fun m => ?_, fun m => ?_, fun m => ?_, ?_, ?_, ?_, ?_⟩ <;>
    simp [targetRotation] <;> ring

/-- Claim C6, counterexample: with no manual override, a boundary whose left
sash is dreh-rechts (turn-right, hinged at its right edge, which is the
shared boundary) and whose right sash is dreh-links does require a mullion in
the code, refuting the claim that it does not. -/
theorem pfosten_turnRight_turnLeft_counterexample :
    ¬ pfostenRequired OpeningType.drehRechts OpeningType.drehLinks 0 = false := by
  decide

/-- Claim C6 (amended): two adjacent dreh-kipp-links sashes require a mullion
with no override; a boundary with left = dreh-rechts and right = dreh-links
also requires one (both hinge at the shared boundary); the pair that needs no
mullion is left = dreh-links with right = dreh-rechts (both anchor away from
the shared boundary), unless the manual override is yes (2). -/
theorem pfosten_rule_cases :
    pfostenRequired OpeningType.drehKippLinks OpeningType.drehKippLinks 0 = true ∧
    pfostenRequired OpeningType.drehRechts OpeningType.drehLinks 0 = true ∧
    pfostenRequired OpeningType.drehLinks OpeningType.drehRechts 0 = false ∧
    pfostenRequired OpeningType.drehLinks OpeningType.drehRechts 2 = true := by
  decide

/-- Claim C8: a profile choice outside 1..4 resolves to the default library
entry "modern-slim", an opening choice outside 1..6 resolves to fixed, and
the per-pane opening configuration list is still produced with one entry per
pane for any choices. -/
theorem unmapped_choice_defaults :
    (∀ choice : ℤ, choice < 1 ∨ 4 < choice → profileKeyOf choice = "modern-slim") ∧
    (∀ choice : ℤ, choice < 1 ∨ 6 < choice → openingTypeOf choice = OpeningType.fixed) ∧
    (∀ (wt : ℕ) (c1 c2 c3 : ℤ), (openingConfigs wt c1 c2 c3).length = wt) := by
  refine ⟨?_, ?_, ?_⟩
  · intro choice h
    unfold profileKeyOf jsIndex
    rcases h with h | h
    · rw [if_neg (by omega)]
      rfl
    · rw [if_pos (by omega)]
      have hnone : profileKeys.get? (choice - 1).toNat = none := by
        rw [List.get?_eq_none]
        simp only [profileKeys, List.length_cons, List.length_nil]
        omega
      rw [hnone]
      rfl
  · intro choice h
    unfold openingTypeOf jsIndex
    rcases h with h | h
    · rw [if_neg (by omega)]
      rfl
    · rw [if_pos (by omega)]
      have hnone : openingTypesList.get? (choice - 1).toNat = none := by
        rw [List.get?_eq_none]
        simp only [openingTypesList, List.length_cons, List.length_nil]
        omega
      rw [hnone]
      rfl
  · intro wt c1 c2 c3
    simp [openingConfigs]

/-- Witness for `unmapped_choice_defaults`: profile choice 7 and opening
choice 0 fall back, and a 3-pane window with out-of-range choices still gets
3 opening configurations. -/
theorem unmapped_choice_defaults_witness :
    profileKeyOf 7 = "modern-slim" ∧ openingTypeOf 0 = OpeningType.fixed ∧
      (openingConfigs 3 9 0 7).length = 3 :=
  ⟨unmapped_choice_defaults.1 7 (Or.inr (by norm_num)),
   unmapped_choice_defaults.2.1 0 (Or.inl (by norm_num)),
   unmapped_choice_defaults.2.2 3 9 0 7⟩

/-- Claim C9, counterexample: `handleSashOpenChange` never inspects the
opening kind, so invoking the toggle on a closed fixed sash sets its open
flag to true, changing the state: the toggle is not a complete no-op. -/
theorem fixed_toggle_mutates_state :
    (handleSashOpenChange ⟨false, 0, SashMode.dreh, false⟩ true SashMode.dreh).isOpen = true ∧
      (⟨false, 0, SashMode.dreh, false⟩ : SashUIState).isOpen = false := by
  decide

/-- Claim C9 (amended): no toggle is rendered for a fixed sash; the
animation target of a fixed sash is always 0 and the tick keeps a closed
angle at 0, so the rotation never changes; but the handler itself, if
invoked, sets the open flag to the requested value and stores the mode (the
rotation and any pending timer are untouched outside the mode-switch
branch). -/
theorem fixed_toggle_effects :
    rendersOpeningToggle OpeningType.fixed = false ∧
    (∀ m o, targetRotation OpeningType.fixed m o = 0) ∧
    (∀ dt : ℚ, sashTick 0 dt 0 = 0) ∧
    (∀ (r : ℚ) (m : SashMode) (req : Bool),
      handleSashOpenChange ⟨false, r, m, false⟩ req m = ⟨req, r, m, false⟩) := by
  refine ⟨rfl, ?_, ?_, ?_⟩
  · intro m o
    cases o <;> rfl
  · intro dt
    norm_num [sashTick]
  · intro r m req
    simp [handleSashOpenChange]

/-- Claim C5: the mode-switch branch of `handleSashOpenChange` snaps the
rotation to 0 immediately (no closing animation), switches the mode at once,
and schedules the reopen on a 50ms wall-clock timer; a superseding close
toggle before the timer fires does not cancel it, and when it fires the sash
reopens against the user's last request. -/
theorem mode_switch_wall_clock_timer :
    handleSashOpenChange ⟨true, 3 / 10, SashMode.dreh, false⟩ true SashMode.kipp =
        ⟨false, 0, SashMode.kipp, true⟩ ∧
      (handleSashOpenChange ⟨false, 0, SashMode.kipp, true⟩ false SashMode.kipp).pendingReopen =
        true ∧
      (reopenTimerFire
          (handleSashOpenChange ⟨false, 0, SashMode.kipp, true⟩ false SashMode.kipp)).isOpen =
        true := by
  decide

/-- Claim C3, counterexample: with target 1 and dt = 1 the first tick moves
the angle from 0 to 3, overshooting the target by 2: the update rule
overshoots and fails to converge for large fixed dt, so the claim does not
hold for arbitrary fixed dt. -/
theorem sash_tick_overshoot_counterexample :
    sashAngleSeq 1 1 1 = 3 ∧ ¬ sashAngleSeq 1 1 1 ≤ 1 + 1 / 1000000 := by
  have h1 : sashAngleSeq 1 1 1 = 3 := by
    show sashTick 1 1 (sashAngleSeq 1 1 0) = 3
    show sashTick 1 1 0 = 3
    norm_num [sashTick]
  refine ⟨h1, ?_⟩
  rw [h1]
  norm_num

/-- Error bound for the tick sequence: the distance to the target shrinks at
least geometrically with ratio `1 - dt * 3` when `0 < dt` and `dt * 3 ≤ 1`. -/
theorem sashAngleSeq_dist_le (T dt : ℚ) (hdt : 0 < dt) (hrate : dt * 3 ≤ 1) :
    ∀ n, |sashAngleSeq T dt n - T| ≤ (1 - dt * 3) ^ n * |T| := by
  have hr0 : 0 ≤ 1 - dt * 3 := by linarith
  intro n
  induction n with
  | zero =>
      simp [sashAngleSeq]
  | succ n ih =>
      show |sashTick T dt (sashAngleSeq T dt n) - T| ≤ _
      set a := sashAngleSeq T dt n with ha
      by_cases h : |T - a| < 0.01
      · rw [sashTick, if_pos h]
        simp only [sub_self, abs_zero]
        positivity
      · rw [sashTick, if_neg h]
        have he : a + (T - a) * dt * 3 - T = (a - T) * (1 - dt * 3) := by ring
        rw [he, abs_mul, abs_of_nonneg hr0]
        calc |a - T| * (1 - dt * 3) ≤ (1 - dt * 3) ^ n * |T| * (1 - dt * 3) :=
              mul_le_mul_of_nonneg_right ih hr0
          _ = (1 - dt * 3) ^ (n + 1) * |T| := by ring

/-- The tick sequence stays between 0 and the target when `0 < dt` and
`dt * 3 ≤ 1`: each step is a convex combination of the current angle and the
target, and the snap jumps exactly to the target. -/
theorem sashAngleSeq_between (T dt : ℚ) (hdt : 0 < dt) (hrate : dt * 3 ≤ 1) :
    ∀ n, min 0 T ≤ sashAngleSeq T dt n ∧ sashAngleSeq T dt n ≤ max 0 T := by
  have hr0 : 0 ≤ 1 - dt * 3 := by linarith
  have hk0 : 0 ≤ dt * 3 := by positivity
  intro n
  induction n with
  | zero =>
      exact ⟨min_le_left 0 T, le_max_left 0 T⟩
  | succ n ih =>
      show min 0 T ≤ sashTick T dt (sashAngleSeq T dt n) ∧
        sashTick T dt (sashAngleSeq T dt n) ≤ max 0 T
      set a := sashAngleSeq T dt n with ha
      obtain ⟨ih1, ih2⟩ := ih
      by_cases h : |T - a| < 0.01
      · rw [sashTick, if_pos h]
        exact ⟨min_le_right 0 T, le_max_right 0 T⟩
      · rw [sashTick, if_neg h]
        constructor
        · have p1 : 0 ≤ (a - min 0 T) * (1 - dt * 3) :=
            mul_nonneg (by linarith) hr0
          have p2 : 0 ≤ (T - min 0 T) * (dt * 3) :=
            mul_nonneg (by linarith [min_le_right 0 T]) hk0
          nlinarith [p1, p2]
        · have p1 : 0 ≤ (max 0 T - a) * (1 - dt * 3) :=
            mul_nonneg (by linarith) hr0
          have p2 : 0 ≤ (max 0 T - T) * (dt * 3) :=
            mul_nonneg (by linarith [le_max_right 0 T]) hk0
          nlinarith [p1, p2]

/-- Claim C3 (amended): the per-tick update is
`angle += (target - angle) * rate * dt` with rate 3, snapping to the target
once `|target - angle| < 0.01`; starting from angle 0 with fixed target T and
fixed dt satisfying `0 < dt` and `dt * 3 ≤ 1` (true for every real frame
interval, e.g. dt = 1/60), the angle stays between 0 and T (so it never
overshoots T) and comes within 0.01 of T after finitely many ticks, staying
there.  For larger dt the rule overshoots (see the counterexample). -/
theorem sash_kinematics_convergence (T dt : ℚ) (hT : T ≠ 0) (hdt : 0 < dt)
    (hrate : dt * 3 ≤ 1) :
    (∀ n, min 0 T ≤ sashAngleSeq T dt n ∧ sashAngleSeq T dt n ≤ max 0 T) ∧
      ∃ N, ∀ n, N ≤ n → |sashAngleSeq T dt n - T| < 0.01 := by
  have hr0 : 0 ≤ 1 - dt * 3 := by linarith
  have hr1 : 1 - dt * 3 < 1 := by linarith
  refine ⟨sashAngleSeq_between T dt hdt hrate, ?_⟩
  have hTpos : 0 < |T| := abs_pos.mpr hT
  obtain ⟨N, hN⟩ :=
    exists_pow_lt_of_lt_one (show (0 : ℚ) < 0.01 / |T| by positivity) hr1
  refine ⟨N, fun n hn => ?_⟩
  have h2 : (1 - dt * 3) ^ n ≤ (1 - dt * 3) ^ N :=
    pow_le_pow_of_le_one hr0 (by linarith) hn
  calc |sashAngleSeq T dt n - T| ≤ (1 - dt * 3) ^ n * |T| :=
        sashAngleSeq_dist_le T dt hdt hrate n
    _ ≤ (1 - dt * 3) ^ N * |T| := mul_le_mul_of_nonneg_right h2 (abs_nonneg T)
    _ < 0.01 / |T| * |T| := mul_lt_mul_of_pos_right hN hTpos
    _ = 0.01 := div_mul_cancel₀ _ (ne_of_gt hTpos)

/-- Witness for `sash_kinematics_convergence` at target 1 and dt = 1/4. -/
theorem sash_kinematics_convergence_witness :
    ((1 : ℚ) ≠ 0 ∧ (0 : ℚ) < 1 / 4 ∧ (1 / 4 : ℚ) * 3 ≤ 1) ∧
      ((∀ n, min 0 1 ≤ sashAngleSeq 1 (1 / 4) n ∧ sashAngleSeq 1 (1 / 4) n ≤ max 0 1) ∧
        ∃ N, ∀ n, N ≤ n → |sashAngleSeq 1 (1 / 4) n - 1| < 0.01) :=
  ⟨by norm_num,
   sash_kinematics_convergence 1 (1 / 4) (by norm_num) (by norm_num) (by norm_num)⟩

end WindowPlugin

namespace WindowPlugin

/-- Glass sizing contract for pane `i` with opening kind `k`: the
`profileSystem.ts` pane size agrees with the `Window.tsx` render-side size;
a fixed pane gets the full inner/sash opening and no sash frame; an operable
pane is reduced by twice the sash profile width (`0.7` of the outer profile
width) on each axis and gets a sash frame. -/
def GlassPaneSizeSpec (W H : ℚ) (pc : ℕ) (PWmm : ℚ) (kinds : List OpeningType)
    (i : ℕ) (k : OpeningType) : Prop :=
  createGlassPaneSize W H pc PWmm kinds i = windowGlassSize W H pc PWmm k ∧
  (k = OpeningType.fixed →
    createGlassPaneSize W H pc PWmm kinds i =
      ((if pc = 1 then W * mmQ - PWmm * mmQ * 2 else (W * mmQ - PWmm * mmQ * 2) / pc),
        H * mmQ - PWmm * mmQ * 2) ∧
    rendersSashFrame k = false) ∧
  (k ≠ OpeningType.fixed →
    createGlassPaneSize W H pc PWmm kinds i =
      ((if pc = 1 then W * mmQ - PWmm * mmQ * 2
          else (W * mmQ - PWmm * mmQ * 2) / pc) - PWmm * mmQ * 0.7 * 2,
        H * mmQ - PWmm * mmQ * 2 - PWmm * mmQ * 0.7 * 2) ∧
    rendersSashFrame k = true)

/-- Claim C10: for every pane whose opening kind is fixed, the glass fills
the entire inner/sash opening and no sash frame is rendered; for every
operable pane the glass is reduced by twice the sash profile width on each
axis and the sash frame is rendered; `createGlassPanes` and the render-side
computation in `Window.tsx` agree. -/
theorem glass_pane_sizing (W H : ℚ) (pc : ℕ) (PWmm : ℚ) (kinds : List OpeningType)
    (i : ℕ) (k : OpeningType) (hpc : 0 < pc) (hi : i < pc)
    (hk : kinds[i]? = some k) :
    GlassPaneSizeSpec W H pc PWmm kinds i k := by
  have key : createGlassPaneSize W H pc PWmm kinds i = windowGlassSize W H pc PWmm k := by
    by_cases hpc1 : pc = 1
    · subst hpc1
      have hi0 : i = 0 := by omega
      subst hi0
      unfold createGlassPaneSize windowGlassSize
      simp [hk]
    · unfold createGlassPaneSize windowGlassSize
      simp [hk, hpc1]
  refine ⟨key, fun hkf => ⟨?_, ?_⟩, fun hkf => ⟨?_, ?_⟩⟩
  · rw [key]
    subst hkf
    unfold windowGlassSize
    simp
  · subst hkf
    simp [rendersSashFrame]
  · rw [key]
    unfold windowGlassSize
    simp [hkf]
  · simp only [rendersSashFrame, bne_iff_ne, ne_eq, decide_not]
    simp [hkf]

/-- Witness for `glass_pane_sizing`: a two-pane window, first pane fixed. -/
theorem glass_pane_sizing_witness :
    ((0 : ℕ) < 2 ∧ (0 : ℕ) < 2 ∧
      ([OpeningType.fixed, OpeningType.drehLinks][0]? = some OpeningType.fixed)) ∧
      GlassPaneSizeSpec 1000 1200 2 60 [OpeningType.fixed, OpeningType.drehLinks] 0
        OpeningType.fixed :=
  ⟨⟨by norm_num, by norm_num, rfl⟩,
   glass_pane_sizing 1000 1200 2 60 [OpeningType.fixed, OpeningType.drehLinks] 0
     OpeningType.fixed (by norm_num) (by norm_num) rfl⟩

end WindowPlugin
